import Mathlib

/-!
Verification of the growth-calculator repository.

The projection engine (`computeProjection` in the two observed page variants)
is a pure arithmetic transform of seven numeric inputs into seven derived
outputs.  JavaScript numbers are modelled as exact rationals (`ℚ`); `Math.ceil`
is `Int.ceil` and `Math.round` is Mathlib's `round` (both round half toward
+∞, matching JavaScript).  The `Infinity` result of `monthsToGoal` is modelled
as `Option ℤ` with `none` for the "never" marker, `some n` for a number.
The subscribe endpoint (`src/app/api/subscribe/route.ts`) is modelled over an
inductive of JavaScript values, with truthiness and `typeof` made explicit.
-/

/-- The seven user-editable inputs of the calculator
(`CalculatorState` in both page variants). -/
structure CalculatorState where
  targetMonthlyRevenue : ℚ
  pricePerClient : ℚ
  videosPerMonth : ℚ
  avgViewsPerVideo : ℚ
  viewToBookingRatePct : ℚ
  showRatePct : ℚ
  closeRatePct : ℚ
deriving DecidableEq, Repr

/-- The seven derived outputs returned by `computeProjection`.
`monthsToGoal = none` models the JavaScript `Infinity` branch. -/
structure Projection where
  clientsNeeded : ℤ
  monthlyReach : ℚ
  bookingsPerMonth : ℚ
  showsPerMonth : ℚ
  newClientsPerMonth : ℚ
  newMRR : ℚ
  monthsToGoal : Option ℤ
deriving DecidableEq, Repr

/-- `computeProjection` from the first page variant (rounded-aligned `newMRR`):
`newMRR = Math.round(newClientsPerMonth) * pricePerClient`. -/
def computeProjection (s : CalculatorState) : Projection :=
  let viewToBookingRate := s.viewToBookingRatePct / 100
  let showRate := s.showRatePct / 100
  let closeRate := s.closeRatePct / 100
  let clientsNeeded : ℤ := ⌈s.targetMonthlyRevenue / max 1 s.pricePerClient⌉
  let monthlyReach := s.videosPerMonth * s.avgViewsPerVideo
  let bookingsPerMonth := monthlyReach * viewToBookingRate
  let showsPerMonth := bookingsPerMonth * showRate
  let newClientsPerMonth := showsPerMonth * closeRate
  let newClientsRounded : ℤ := round newClientsPerMonth
  let newMRR := (newClientsRounded : ℚ) * s.pricePerClient
  let monthsToGoal : Option ℤ :=
    if 0 < newClientsPerMonth then some ⌈(clientsNeeded : ℚ) / newClientsPerMonth⌉
    else none
  { clientsNeeded, monthlyReach, bookingsPerMonth, showsPerMonth,
    newClientsPerMonth, newMRR, monthsToGoal }

/-- `computeProjection` from the second page variant (unrounded `newMRR`):
`newMRR = newClientsPerMonth * pricePerClient`.  All other fields are computed
by the same formulas as the first variant. -/
def computeProjectionUnrounded (s : CalculatorState) : Projection :=
  let viewToBookingRate := s.viewToBookingRatePct / 100
  let showRate := s.showRatePct / 100
  let closeRate := s.closeRatePct / 100
  let clientsNeeded : ℤ := ⌈s.targetMonthlyRevenue / max 1 s.pricePerClient⌉
  let monthlyReach := s.videosPerMonth * s.avgViewsPerVideo
  let bookingsPerMonth := monthlyReach * viewToBookingRate
  let showsPerMonth := bookingsPerMonth * showRate
  let newClientsPerMonth := showsPerMonth * closeRate
  let newMRR := newClientsPerMonth * s.pricePerClient
  let monthsToGoal : Option ℤ :=
    if 0 < newClientsPerMonth then some ⌈(clientsNeeded : ℚ) / newClientsPerMonth⌉
    else none
  { clientsNeeded, monthlyReach, bookingsPerMonth, showsPerMonth,
    newClientsPerMonth, newMRR, monthsToGoal }

/-- Default inputs of the first page variant, also the first worked example:
target 50000, price 500, 12 videos, 1000 views, rates 0.8 / 60 / 40. -/
def exampleOne : CalculatorState :=
  { targetMonthlyRevenue := 50000, pricePerClient := 500, videosPerMonth := 12,
    avgViewsPerVideo := 1000, viewToBookingRatePct := 0.8, showRatePct := 60,
    closeRatePct := 40 }

/-- Default inputs of the second page variant, also the second worked example:
target 50000, price 2000, 12 videos, 1500 views, rates 2 / 70 / 25. -/
def exampleTwo : CalculatorState :=
  { targetMonthlyRevenue := 50000, pricePerClient := 2000, videosPerMonth := 12,
    avgViewsPerVideo := 1500, viewToBookingRatePct := 2, showRatePct := 70,
    closeRatePct := 25 }

/-- `exampleOne` with the close rate zeroed out. -/
def exampleCloseZero : CalculatorState := { exampleOne with closeRatePct := 0 }

/-- `exampleOne` with a negative close rate. -/
def exampleCloseNeg : CalculatorState := { exampleOne with closeRatePct := -40 }

/-- `exampleOne` with zero target revenue: the goal is already met, and the
engine reports `clientsNeeded = 0` and `monthsToGoal = 0`. -/
def exampleGoalZero : CalculatorState := { exampleOne with targetMonthlyRevenue := 0 }

/-- Zero target revenue and a price of zero (so the `max 1 _` guard fires). -/
def examplePriceZero : CalculatorState :=
  { exampleOne with targetMonthlyRevenue := 0, pricePerClient := 0 }

/-- Negative price with a positive target revenue. -/
def examplePriceNeg : CalculatorState :=
  { exampleOne with targetMonthlyRevenue := 100, pricePerClient := -5 }

/-- A funnel producing a quarter of a client per month
(1 video, 1 view, rates 100 / 100 / 25), with zero target revenue. -/
def exampleTinyGoalZero : CalculatorState :=
  { targetMonthlyRevenue := 0, pricePerClient := 500, videosPerMonth := 1,
    avgViewsPerVideo := 1, viewToBookingRatePct := 100, showRatePct := 100,
    closeRatePct := 25 }

/-- The same quarter-client funnel with a positive target revenue of 100. -/
def exampleTinyGoalPos : CalculatorState :=
  { exampleTinyGoalZero with targetMonthlyRevenue := 100 }

/-! Definitional unfoldings of the output fields, used throughout. -/

theorem clientsNeeded_def (s : CalculatorState) :
    (computeProjection s).clientsNeeded =
      ⌈s.targetMonthlyRevenue / max 1 s.pricePerClient⌉ := rfl

theorem newClientsPerMonth_def (s : CalculatorState) :
    (computeProjection s).newClientsPerMonth =
      s.videosPerMonth * s.avgViewsPerVideo * (s.viewToBookingRatePct / 100) *
        (s.showRatePct / 100) * (s.closeRatePct / 100) := rfl

theorem monthsToGoal_def (s : CalculatorState) :
    (computeProjection s).monthsToGoal =
      if 0 < (computeProjection s).newClientsPerMonth then
        some ⌈((computeProjection s).clientsNeeded : ℚ) /
          (computeProjection s).newClientsPerMonth⌉
      else none := rfl

theorem newMRR_def (s : CalculatorState) :
    (computeProjection s).newMRR =
      (round (computeProjection s).newClientsPerMonth : ℚ) * s.pricePerClient := rfl

/-- When the goal is positive, `clientsNeeded` is positive: the guarded
denominator `max 1 pricePerClient` is positive and `Math.ceil` of a positive
quotient is at least 1. -/
theorem clientsNeeded_pos (s : CalculatorState)
    (h : 0 < s.targetMonthlyRevenue) : 0 < (computeProjection s).clientsNeeded := by
  rw [clientsNeeded_def]
  exact Int.ceil_pos.mpr
    (div_pos h (lt_of_lt_of_le zero_lt_one (le_max_left 1 s.pricePerClient)))

/-- When the goal is positive, a numeric `monthsToGoal` is positive. -/
theorem monthsToGoal_pos (s : CalculatorState)
    (h : 0 < s.targetMonthlyRevenue) :
    ∀ n : ℤ, (computeProjection s).monthsToGoal = some n → 0 < n := by
  intro n hn
  rw [monthsToGoal_def] at hn
  by_cases hp : 0 < (computeProjection s).newClientsPerMonth
  · rw [if_pos hp] at hn
    have hcn : (0 : ℚ) < ((computeProjection s).clientsNeeded : ℚ) := by
      exact_mod_cast clientsNeeded_pos s h
    have hpos := Int.ceil_pos.mpr (div_pos hcn hp)
    exact Option.some.inj hn ▸ hpos
  · rw [if_neg hp] at hn
    exact absurd hn (by simp)

/-- C1: both projection-engine variants compute, for every input record, the
five upstream outputs by the exact spec formulas: `clientsNeeded` as the
ceiling of the target revenue over `max 1 pricePerClient`, `monthlyReach` as
videos times views, then the three funnel stages scaled by the percent fields
divided by 100, with `newClientsPerMonth` kept unrounded. -/
theorem C1_projection_formulas (s : CalculatorState) :
    (computeProjection s).clientsNeeded =
      ⌈s.targetMonthlyRevenue / max 1 s.pricePerClient⌉ ∧
    (computeProjection s).monthlyReach = s.videosPerMonth * s.avgViewsPerVideo ∧
    (computeProjection s).bookingsPerMonth =
      (computeProjection s).monthlyReach * (s.viewToBookingRatePct / 100) ∧
    (computeProjection s).showsPerMonth =
      (computeProjection s).bookingsPerMonth * (s.showRatePct / 100) ∧
    (computeProjection s).newClientsPerMonth =
      (computeProjection s).showsPerMonth * (s.closeRatePct / 100) ∧
    (computeProjectionUnrounded s).clientsNeeded =
      ⌈s.targetMonthlyRevenue / max 1 s.pricePerClient⌉ ∧
    (computeProjectionUnrounded s).monthlyReach =
      s.videosPerMonth * s.avgViewsPerVideo ∧
    (computeProjectionUnrounded s).bookingsPerMonth =
      (computeProjectionUnrounded s).monthlyReach * (s.viewToBookingRatePct / 100) ∧
    (computeProjectionUnrounded s).showsPerMonth =
      (computeProjectionUnrounded s).bookingsPerMonth * (s.showRatePct / 100) ∧
    (computeProjectionUnrounded s).newClientsPerMonth =
      (computeProjectionUnrounded s).showsPerMonth * (s.closeRatePct / 100) :=
  ⟨rfl, rfl, rfl, rfl, rfl, rfl, rfl, rfl, rfl, rfl⟩

/-- C4: the two observed variants agree on every output field except `newMRR`;
the rounded-aligned variant multiplies the rounded client count by the price,
the unrounded variant multiplies the raw client count by the price, and on the
first default input set the two `newMRR` values differ (11500 vs 11520). -/
theorem C4_variant_agreement (s : CalculatorState) :
    (computeProjection s).clientsNeeded = (computeProjectionUnrounded s).clientsNeeded ∧
    (computeProjection s).monthlyReach = (computeProjectionUnrounded s).monthlyReach ∧
    (computeProjection s).bookingsPerMonth = (computeProjectionUnrounded s).bookingsPerMonth ∧
    (computeProjection s).showsPerMonth = (computeProjectionUnrounded s).showsPerMonth ∧
    (computeProjection s).newClientsPerMonth = (computeProjectionUnrounded s).newClientsPerMonth ∧
    (computeProjection s).monthsToGoal = (computeProjectionUnrounded s).monthsToGoal ∧
    (computeProjection s).newMRR =
      (round (computeProjection s).newClientsPerMonth : ℚ) * s.pricePerClient ∧
    (computeProjectionUnrounded s).newMRR =
      (computeProjectionUnrounded s).newClientsPerMonth * s.pricePerClient ∧
    ∃ t : CalculatorState,
      (computeProjection t).newMRR ≠ (computeProjectionUnrounded t).newMRR := by
  refine ⟨rfl, rfl, rfl, rfl, rfl, rfl, rfl, rfl, exampleOne, ?_⟩
  norm_num [computeProjection, computeProjectionUnrounded, exampleOne, round_eq]

/-- C5: the engine reproduces both worked examples of the spec, including the
rounded-aligned `newMRR = 11500` on the first and `newMRR = 126000` (both
variants) with `monthsToGoal = 1` on the second. -/
theorem C5_worked_examples :
    (computeProjection exampleOne).clientsNeeded = 100 ∧
    (computeProjection exampleOne).monthlyReach = 12000 ∧
    (computeProjection exampleOne).bookingsPerMonth = 96 ∧
    (computeProjection exampleOne).showsPerMonth = 57.6 ∧
    (computeProjection exampleOne).newClientsPerMonth = 23.04 ∧
    (computeProjection exampleOne).newMRR = 11500 ∧
    (computeProjection exampleOne).monthsToGoal = some 5 ∧
    (computeProjection exampleTwo).clientsNeeded = 25 ∧
    (computeProjection exampleTwo).monthlyReach = 18000 ∧
    (computeProjection exampleTwo).bookingsPerMonth = 360 ∧
    (computeProjection exampleTwo).showsPerMonth = 252 ∧
    (computeProjection exampleTwo).newClientsPerMonth = 63 ∧
    (computeProjection exampleTwo).newMRR = 126000 ∧
    (computeProjectionUnrounded exampleTwo).newMRR = 126000 ∧
    (computeProjection exampleTwo).monthsToGoal = some 1 := by
  norm_num [computeProjection, computeProjectionUnrounded, exampleOne, exampleTwo,
    round_eq, Int.ceil_eq_iff]

/-- C7: the engine is deterministic and stateless — its output is a function
of the seven input fields alone, so two calls on field-wise identical input
records return identical output records, field by field, in both variants. -/
theorem C7_deterministic (s t : CalculatorState)
    (h1 : s.targetMonthlyRevenue = t.targetMonthlyRevenue)
    (h2 : s.pricePerClient = t.pricePerClient)
    (h3 : s.videosPerMonth = t.videosPerMonth)
    (h4 : s.avgViewsPerVideo = t.avgViewsPerVideo)
    (h5 : s.viewToBookingRatePct = t.viewToBookingRatePct)
    (h6 : s.showRatePct = t.showRatePct)
    (h7 : s.closeRatePct = t.closeRatePct) :
    computeProjection s = computeProjection t ∧
    computeProjectionUnrounded s = computeProjectionUnrounded t ∧
    (computeProjection s).clientsNeeded = (computeProjection t).clientsNeeded ∧
    (computeProjection s).monthlyReach = (computeProjection t).monthlyReach ∧
    (computeProjection s).bookingsPerMonth = (computeProjection t).bookingsPerMonth ∧
    (computeProjection s).showsPerMonth = (computeProjection t).showsPerMonth ∧
    (computeProjection s).newClientsPerMonth = (computeProjection t).newClientsPerMonth ∧
    (computeProjection s).newMRR = (computeProjection t).newMRR ∧
    (computeProjection s).monthsToGoal = (computeProjection t).monthsToGoal := by
  have hst : s = t := by cases s; cases t; simp_all
  subst hst
  exact ⟨rfl, rfl, rfl, rfl, rfl, rfl, rfl, rfl, rfl⟩

/-- Witness for C7 at the first default input set. -/
theorem C7_deterministic_witness :
    computeProjection exampleOne = computeProjection exampleOne ∧
    computeProjectionUnrounded exampleOne = computeProjectionUnrounded exampleOne ∧
    (computeProjection exampleOne).clientsNeeded = (computeProjection exampleOne).clientsNeeded ∧
    (computeProjection exampleOne).monthlyReach = (computeProjection exampleOne).monthlyReach ∧
    (computeProjection exampleOne).bookingsPerMonth = (computeProjection exampleOne).bookingsPerMonth ∧
    (computeProjection exampleOne).showsPerMonth = (computeProjection exampleOne).showsPerMonth ∧
    (computeProjection exampleOne).newClientsPerMonth = (computeProjection exampleOne).newClientsPerMonth ∧
    (computeProjection exampleOne).newMRR = (computeProjection exampleOne).newMRR ∧
    (computeProjection exampleOne).monthsToGoal = (computeProjection exampleOne).monthsToGoal :=
  C7_deterministic exampleOne exampleOne rfl rfl rfl rfl rfl rfl rfl

/-- C2: `monthsToGoal` is `ceil(clientsNeeded / newClientsPerMonth)` exactly
when `newClientsPerMonth > 0`; otherwise it is the "never" marker (`none`,
modelling `Infinity`), which is distinct from every number.  In particular a
zero close rate, show rate or view-to-booking rate forces
`newClientsPerMonth = 0` and the "never" marker. -/
theorem C2_monthsToGoal_guard (s : CalculatorState) :
    (0 < (computeProjection s).newClientsPerMonth →
      (computeProjection s).monthsToGoal =
        some ⌈((computeProjection s).clientsNeeded : ℚ) /
          (computeProjection s).newClientsPerMonth⌉) ∧
    (¬ 0 < (computeProjection s).newClientsPerMonth →
      (computeProjection s).monthsToGoal = none) ∧
    ((s.closeRatePct = 0 ∨ s.showRatePct = 0 ∨ s.viewToBookingRatePct = 0) →
      (computeProjection s).newClientsPerMonth = 0 ∧
      (computeProjection s).monthsToGoal = none) ∧
    (∀ n : ℤ, (none : Option ℤ) ≠ some n) := by
  have hzero : (s.closeRatePct = 0 ∨ s.showRatePct = 0 ∨ s.viewToBookingRatePct = 0) →
      (computeProjection s).newClientsPerMonth = 0 := by
    intro h
    rw [newClientsPerMonth_def]
    rcases h with h | h | h <;> rw [h] <;> ring
  refine ⟨fun h => ?_, fun h => ?_, fun h => ⟨hzero h, ?_⟩, fun n => by simp⟩
  · rw [monthsToGoal_def, if_pos h]
  · rw [monthsToGoal_def, if_neg h]
  · rw [monthsToGoal_def, if_neg (by rw [hzero h]; exact lt_irrefl 0)]

/-- Witness for C2: on the first default inputs the numeric branch is taken,
and zeroing the close rate yields the "never" marker. -/
theorem C2_monthsToGoal_guard_witness :
    (computeProjection exampleOne).monthsToGoal =
      some ⌈((computeProjection exampleOne).clientsNeeded : ℚ) /
        (computeProjection exampleOne).newClientsPerMonth⌉ ∧
    (computeProjection exampleCloseZero).newClientsPerMonth = 0 ∧
    (computeProjection exampleCloseZero).monthsToGoal = none :=
  ⟨(C2_monthsToGoal_guard exampleOne).1
      (by norm_num [computeProjection, exampleOne]),
   (C2_monthsToGoal_guard exampleCloseZero).2.2.1
      (Or.inl (by norm_num [exampleCloseZero, exampleOne]))⟩

/-- Counterexample to C3 as stated: with `pricePerClient = 0 ≤ 0` and
`targetMonthlyRevenue = 0`, `clientsNeeded = ceil(0 / 1) = 0`, so the result
can be zero. -/
theorem C3_counterexample :
    examplePriceZero.pricePerClient ≤ 0 ∧
    (computeProjection examplePriceZero).clientsNeeded = 0 := by
  constructor
  · norm_num [examplePriceZero, exampleOne]
  · rw [clientsNeeded_def]
    norm_num [examplePriceZero, exampleOne]

/-- C3 amended: for every input with `pricePerClient ≤ 0`, `clientsNeeded` is
computed with denominator 1 (the division never fails), and the result is
positive whenever `targetMonthlyRevenue > 0` (it can be zero or negative when
the target revenue is not positive). -/
theorem C3_denominator_one (s : CalculatorState) (h : s.pricePerClient ≤ 0) :
    (computeProjection s).clientsNeeded = ⌈s.targetMonthlyRevenue / 1⌉ ∧
    (0 < s.targetMonthlyRevenue → 0 < (computeProjection s).clientsNeeded) := by
  have hmax : max 1 s.pricePerClient = 1 :=
    max_eq_left (h.trans (by norm_num))
  exact ⟨by rw [clientsNeeded_def, hmax], fun ht => clientsNeeded_pos s ht⟩

/-- Witness for C3 amended at a negative price and positive target. -/
theorem C3_denominator_one_witness :
    examplePriceNeg.pricePerClient ≤ 0 ∧
    0 < examplePriceNeg.targetMonthlyRevenue ∧
    (computeProjection examplePriceNeg).clientsNeeded =
      ⌈examplePriceNeg.targetMonthlyRevenue / 1⌉ ∧
    0 < (computeProjection examplePriceNeg).clientsNeeded :=
  ⟨by norm_num [examplePriceNeg, exampleOne],
   by norm_num [examplePriceNeg, exampleOne],
   (C3_denominator_one examplePriceNeg (by norm_num [examplePriceNeg, exampleOne])).1,
   (C3_denominator_one examplePriceNeg (by norm_num [examplePriceNeg, exampleOne])).2
     (by norm_num [examplePriceNeg, exampleOne])⟩

/-- Counterexample to C9 as stated: on the quarter-client funnel with zero
target revenue, `newClientsPerMonth = 1/4 ∈ (0, 1/2)` and `newMRR = 0`, but
`monthsToGoal = some 0` is not positive. -/
theorem C9_counterexample :
    0 < (computeProjection exampleTinyGoalZero).newClientsPerMonth ∧
    (computeProjection exampleTinyGoalZero).newClientsPerMonth < 1 / 2 ∧
    (computeProjection exampleTinyGoalZero).newMRR = 0 ∧
    (computeProjection exampleTinyGoalZero).monthsToGoal = some 0 := by
  refine ⟨?_, ?_, ?_, ?_⟩
  · norm_num [computeProjection, exampleTinyGoalZero]
  · norm_num [computeProjection, exampleTinyGoalZero]
  · norm_num [computeProjection, exampleTinyGoalZero, round_eq]
  · norm_num [computeProjection, exampleTinyGoalZero]

/-- C9 amended: in the rounded-aligned variant `newMRR` is always the rounded
client count (an integer) times `pricePerClient`; for every input with
`0 < newClientsPerMonth < 1/2`, `newMRR = 0` even though `newClientsPerMonth`
is positive, and `monthsToGoal` is a positive number whenever the target
revenue is also positive. -/
theorem C9_rounded_newMRR (s : CalculatorState) :
    (computeProjection s).newMRR =
      (round (computeProjection s).newClientsPerMonth : ℚ) * s.pricePerClient ∧
    (0 < (computeProjection s).newClientsPerMonth →
      (computeProjection s).newClientsPerMonth < 1 / 2 →
      (computeProjection s).newMRR = 0 ∧
      (0 < s.targetMonthlyRevenue →
        ∃ n : ℤ, (computeProjection s).monthsToGoal = some n ∧ 0 < n)) := by
  refine ⟨newMRR_def s, fun h1 h2 => ⟨?_, fun ht => ?_⟩⟩
  · rw [newMRR_def]
    have : round (computeProjection s).newClientsPerMonth = 0 :=
      round_eq_zero_iff.mpr ⟨by linarith, h2⟩
    rw [this]
    norm_num
  · refine ⟨⌈((computeProjection s).clientsNeeded : ℚ) /
      (computeProjection s).newClientsPerMonth⌉, ?_, ?_⟩
    · rw [monthsToGoal_def, if_pos h1]
    · exact monthsToGoal_pos s ht _ (by rw [monthsToGoal_def, if_pos h1])

/-- Witness for C9 amended on the quarter-client funnel with target 100:
`newMRR = 0` while `monthsToGoal = some 4 > 0`. -/
theorem C9_rounded_newMRR_witness :
    (computeProjection exampleTinyGoalPos).newMRR =
      (round (computeProjection exampleTinyGoalPos).newClientsPerMonth : ℚ) *
        exampleTinyGoalPos.pricePerClient ∧
    (computeProjection exampleTinyGoalPos).newMRR = 0 ∧
    ∃ n : ℤ, (computeProjection exampleTinyGoalPos).monthsToGoal = some n ∧ 0 < n :=
  ⟨(C9_rounded_newMRR exampleTinyGoalPos).1,
   ((C9_rounded_newMRR exampleTinyGoalPos).2
      (by norm_num [computeProjection, exampleTinyGoalPos, exampleTinyGoalZero])
      (by norm_num [computeProjection, exampleTinyGoalPos, exampleTinyGoalZero])).1,
   ((C9_rounded_newMRR exampleTinyGoalPos).2
      (by norm_num [computeProjection, exampleTinyGoalPos, exampleTinyGoalZero])
      (by norm_num [computeProjection, exampleTinyGoalPos, exampleTinyGoalZero])).2
     (by norm_num [exampleTinyGoalPos, exampleTinyGoalZero])⟩

/-- Counterexample to C10 as stated: with zero target revenue (all other
first-variant defaults), `newClientsPerMonth = 23.04 > 0`, `clientsNeeded = 0`
and `monthsToGoal = some 0` — a zero number, not the "never" marker. -/
theorem C10_counterexample :
    0 < (computeProjection exampleGoalZero).newClientsPerMonth ∧
    (computeProjection exampleGoalZero).monthsToGoal = some 0 := by
  constructor
  · norm_num [computeProjection, exampleGoalZero, exampleOne]
  · norm_num [computeProjection, exampleGoalZero, exampleOne]

/-- C10 amended: the guard on `monthsToGoal` is strict positivity of
`newClientsPerMonth` — whenever `newClientsPerMonth ≤ 0` (including negative
values from a negative rate) the result is the "never" marker; and whenever
the target revenue is positive, a numeric `monthsToGoal` is positive (with a
non-positive target it can be zero or negative). -/
theorem C10_never_guard (s : CalculatorState) :
    ((computeProjection s).newClientsPerMonth ≤ 0 →
      (computeProjection s).monthsToGoal = none) ∧
    (0 < s.targetMonthlyRevenue →
      ∀ n : ℤ, (computeProjection s).monthsToGoal = some n → 0 < n) := by
  refine ⟨fun h => ?_, fun ht => monthsToGoal_pos s ht⟩
  rw [monthsToGoal_def, if_neg (not_lt.mpr h)]

/-- Witness for C10 amended: a negative close rate yields the "never" marker,
and on the first default inputs the numeric `monthsToGoal = 5` is positive. -/
theorem C10_never_guard_witness :
    (computeProjection exampleCloseNeg).monthsToGoal = none ∧
    (0 : ℤ) < 5 :=
  ⟨(C10_never_guard exampleCloseNeg).1
      (by norm_num [computeProjection, exampleCloseNeg, exampleOne]),
   (C10_never_guard exampleOne).2
      (by norm_num [exampleOne]) 5
      (by norm_num [computeProjection, exampleOne, Int.ceil_eq_iff])⟩

/-!
Model of the subscribe endpoint (`src/app/api/subscribe/route.ts`).

The request body is destructured into `email` and `payload`; a field that is
absent destructures to `undefined`.  The handler rejects with status 400 when
`!email || typeof email !== "string"`, rejects with status 500 when
`process.env.SUBSCRIBE_WEBHOOK_URL` is unset, and otherwise forwards
`{ email, payload: payload ?? null, source: "prjct-zenith-calculator" }` to
that URL and answers `{ ok: true }` (status 200).  A body that fails to parse
as JSON is caught and answered with status 400.
-/

/-- JavaScript values as far as the endpoint inspects them: strings, numbers,
booleans, `null`, `undefined`, and opaque objects/arrays. -/
inductive JsValue where
  | str (s : String)
  | num (q : ℚ)
  | boolean (b : Bool)
  | null
  | undef
  | obj
  | arr
deriving DecidableEq, Repr

/-- JavaScript truthiness test (`!v` is `isFalsy v`): falsy values are `""`,
`0`, `false`, `null` and `undefined`. -/
def JsValue.isFalsy : JsValue → Bool
  | .str s => s == ""
  | .num q => q == 0
  | .boolean b => !b
  | .null => true
  | .undef => true
  | .obj => false
  | .arr => false

/-- `typeof v === "string"`. -/
def JsValue.isString : JsValue → Bool
  | .str _ => true
  | _ => false

/-- The nullish-coalescing default `payload ?? null`. -/
def nullishOrNull (v : JsValue) : JsValue :=
  match v with
  | .undef => .null
  | .null => .null
  | v => v

/-- The `email` and `payload` fields destructured from a parsed JSON body;
an absent field is `undef`. -/
structure RequestBody where
  email : JsValue
  payload : JsValue
deriving DecidableEq, Repr

/-- The body the endpoint POSTs to the configured webhook. -/
structure Forwarded where
  url : String
  email : JsValue
  payload : JsValue
  source : String
deriving DecidableEq, Repr

/-- The observable outcome of one request: the HTTP status, the `ok` flag of
the JSON response, and what (if anything) was forwarded to the webhook. -/
structure PostResult where
  status : Nat
  ok : Bool
  forwarded : Option Forwarded
deriving DecidableEq, Repr

/-- The `POST` handler of `src/app/api/subscribe/route.ts`.  `body = none`
models a request whose JSON parsing throws (caught: status 400);
`subscribeWebhookUrl` models `process.env.SUBSCRIBE_WEBHOOK_URL`. -/
def POST (body : Option RequestBody) (subscribeWebhookUrl : Option String) :
    PostResult :=
  match body with
  | none => { status := 400, ok := false, forwarded := none }
  | some b =>
    if b.email.isFalsy || !b.email.isString then
      { status := 400, ok := false, forwarded := none }
    else
      match subscribeWebhookUrl with
      | none => { status := 500, ok := false, forwarded := none }
      | some url =>
        { status := 200, ok := true,
          forwarded := some { url := url, email := b.email,
                              payload := nullishOrNull b.payload,
                              source := "prjct-zenith-calculator" } }

/-- A valid request body: a non-empty string email, no payload. -/
def exampleOkBody : RequestBody := { email := .str "a@b.c", payload := .undef }

/-- A body whose email field is present and a string, but empty. -/
def exampleEmptyEmailBody : RequestBody := { email := .str "", payload := .undef }

/-- A body whose email field is a number, not a string. -/
def exampleNumEmailBody : RequestBody := { email := .num 0, payload := .undef }

/-- The webhook URL used in concrete runs. -/
def exampleHookUrl : String := "https://example.com/hook"

/-- Counterexample to C6 as stated: the empty string is a present, string-typed
email, yet the handler answers 400 (the `!email` truthiness test rejects it)
and forwards nothing even though the webhook URL is configured — it does not
forward and return success as the claim requires. -/
theorem C6_counterexample :
    exampleEmptyEmailBody.email.isString = true ∧
    (POST (some exampleEmptyEmailBody) (some exampleHookUrl)).status = 400 ∧
    (POST (some exampleEmptyEmailBody) (some exampleHookUrl)).ok = false ∧
    (POST (some exampleEmptyEmailBody) (some exampleHookUrl)).forwarded = none := by
  refine ⟨rfl, ?_, ?_, ?_⟩ <;>
    simp [POST, exampleEmptyEmailBody, JsValue.isFalsy, JsValue.isString]

/-- C6 amended: if the email field is missing, not a string, or falsy (in
particular the empty string), the response is a client error (400) and nothing
is forwarded; otherwise — the email is a non-empty string — if the configured
webhook URL is absent the response is a server error (500), and if it is
present the endpoint forwards exactly `{ email, payload (defaulted to null),
source }` to that URL and returns success (200, ok). -/
theorem C6_subscribe_endpoint (b : RequestBody) (cfg : Option String) :
    ((b.email.isFalsy = true ∨ b.email.isString = false) →
      POST (some b) cfg = { status := 400, ok := false, forwarded := none }) ∧
    ((∃ s : String, b.email = .str s ∧ s ≠ "") →
      (cfg = none →
        POST (some b) cfg = { status := 500, ok := false, forwarded := none }) ∧
      (∀ url : String, cfg = some url →
        POST (some b) cfg =
          { status := 200, ok := true,
            forwarded := some { url := url, email := b.email,
                                payload := nullishOrNull b.payload,
                                source := "prjct-zenith-calculator" } })) := by
  constructor
  · intro h
    rcases h with h | h <;> simp [POST, h]
  · rintro ⟨s, hs, hne⟩
    have hcond : (b.email.isFalsy || !b.email.isString) = false := by
      rw [hs]
      simp [JsValue.isFalsy, JsValue.isString, hne]
    constructor
    · intro hcfg
      subst hcfg
      simp [POST, hcond]
    · intro url hcfg
      subst hcfg
      simp [POST, hcond]

/-- Witness for C6 amended: a 400 on a numeric email, a 500 on a valid email
without configuration, and a successful forward on a valid email with
configuration. -/
theorem C6_subscribe_endpoint_witness :
    POST (some exampleNumEmailBody) (some exampleHookUrl) =
      { status := 400, ok := false, forwarded := none } ∧
    POST (some exampleOkBody) none =
      { status := 500, ok := false, forwarded := none } ∧
    POST (some exampleOkBody) (some exampleHookUrl) =
      { status := 200, ok := true,
        forwarded := some { url := exampleHookUrl, email := exampleOkBody.email,
                            payload := nullishOrNull exampleOkBody.payload,
                            source := "prjct-zenith-calculator" } } :=
  ⟨(C6_subscribe_endpoint exampleNumEmailBody (some exampleHookUrl)).1
      (Or.inl (by simp [exampleNumEmailBody, JsValue.isFalsy])),
   ((C6_subscribe_endpoint exampleOkBody none).2
      ⟨"a@b.c", rfl, by simp⟩).1 rfl,
   ((C6_subscribe_endpoint exampleOkBody (some exampleHookUrl)).2
      ⟨"a@b.c", rfl, by simp⟩).2 exampleHookUrl rfl⟩

/-- C8: the email validation runs before the configuration check — an invalid
(missing, non-string or falsy) email always yields 400, whatever the
configuration, and a 500 can only arise for a parsed body whose email is a
non-empty string, with the configuration absent. -/
theorem C8_email_checked_first (body : Option RequestBody) (cfg : Option String) :
    (∀ b : RequestBody, body = some b →
      (b.email.isFalsy = true ∨ b.email.isString = false) →
      (POST body cfg).status = 400) ∧
    ((POST body cfg).status = 500 →
      ∃ (b : RequestBody) (s : String),
        body = some b ∧ b.email = .str s ∧ s ≠ "" ∧ cfg = none) := by
  constructor
  · rintro b rfl h
    rcases h with h | h <;> simp [POST, h]
  · intro h500
    rcases body with _ | b
    · simp [POST] at h500
    · cases hb : b.email with
      | str s =>
        by_cases hs : s = ""
        · subst hs
          simp [POST, hb, JsValue.isFalsy] at h500
        · rcases cfg with _ | url
          · exact ⟨b, s, rfl, hb, hs, rfl⟩
          · simp [POST, hb, JsValue.isFalsy, JsValue.isString, hs] at h500
      | num q => simp [POST, hb, JsValue.isFalsy, JsValue.isString] at h500
      | boolean bb => simp [POST, hb, JsValue.isFalsy, JsValue.isString] at h500
      | null => simp [POST, hb, JsValue.isFalsy] at h500
      | undef => simp [POST, hb, JsValue.isFalsy] at h500
      | obj => simp [POST, hb, JsValue.isFalsy, JsValue.isString] at h500
      | arr => simp [POST, hb, JsValue.isFalsy, JsValue.isString] at h500

/-- Witness for C8: a numeric email gets 400 even with the configuration
absent, and an actual 500 run exhibits the promised non-empty string email. -/
theorem C8_email_checked_first_witness :
    (POST (some exampleNumEmailBody) none).status = 400 ∧
    (∃ (b : RequestBody) (s : String),
      (some exampleOkBody : Option RequestBody) = some b ∧
      b.email = .str s ∧ s ≠ "" ∧ (none : Option String) = none) :=
  ⟨(C8_email_checked_first (some exampleNumEmailBody) none).1 exampleNumEmailBody
      rfl (Or.inr (by simp [exampleNumEmailBody, JsValue.isString])),
   (C8_email_checked_first (some exampleOkBody) none).2
      (by simp [POST, exampleOkBody, JsValue.isFalsy, JsValue.isString])⟩
